import Mathlib

/-!
Shallow embedding of the DJQ song-request server (the multi-tenant
"session isolation" revision, plus the OpenAI-enhanced single-tenant
revision's enrichment client), together with proofs of the spec's
testable properties.

Modelling conventions:

* HTTP request parameters (query/body fields) are `Option String`;
  a JavaScript-falsy string parameter (absent or `""`) is captured by
  `jsFalsy`.
* The SQLite tables become lists inside a `Store` record; the
  autoincrement submission id is `nextSubmissionId`; row timestamps
  (`created_at DATETIME DEFAULT CURRENT_TIMESTAMP`) are abstract `Nat`
  ticks passed in by the caller, and the read-path reformatting of the
  timestamp string is the identity on this abstract representation.
* `Math.random()` sampling is a stream `Nat → Fin 36` of character
  indices consumed four at a time per candidate code.
* `SELECT ... WHERE id = ?` with `db.get` is `List.find?`;
  `ORDER BY created_at DESC` is an insertion sort on the tick.
* Upstream network effects (Spotify / OpenAI) enter as explicit outcome
  parameters, so the enrichment functions are total over all outcomes,
  the `catch` branch included.
-/

namespace DJQ

/-! ### JavaScript-semantics helpers -/

/-- A request parameter is falsy when it is absent or the empty string. -/
def jsFalsy : Option String → Bool
  | none => true
  | some s => decide (s = "")

/-- Models the JS expression `v || null`: absent or empty becomes null. -/
def jsOrNullStr : Option String → Option String
  | none => none
  | some s => if s = "" then none else some s

/-- Models `v || null` on a number: absent or `0` becomes null. -/
def jsOrNullInt : Option Int → Option Int
  | none => none
  | some n => if n = 0 then none else some n

/-- Drop whitespace from both ends of a character list. -/
def trimChars (l : List Char) : List Char :=
  ((l.dropWhile Char.isWhitespace).reverse.dropWhile Char.isWhitespace).reverse

/-- Models JS `String.prototype.trim()` (executable, unlike `String.trim`). -/
def jsTrim (s : String) : String := String.mk (trimChars s.data)

/-! ### Key Converter (`convertToCamelotKey`) -/

/-- Wheel positions for major keys (mode = 1), indexed by pitch class. -/
def camelotMajor : List Nat := [8, 3, 10, 5, 12, 7, 2, 9, 4, 11, 6, 1]

/-- Wheel positions for minor keys (mode = 0), indexed by pitch class. -/
def camelotMinor : List Nat := [5, 12, 7, 2, 9, 4, 11, 6, 1, 8, 3, 10]

/-- `convertToCamelotKey(key, mode)`: null on the `-1` sentinels, else a
table lookup with suffix `A` for major and `B` for minor.  (Out-of-range
indexing, which Spotify never produces, is modelled as `none`.) -/
def convertToCamelotKey (key mode : Int) : Option String :=
  if key = -1 ∨ mode = -1 then none
  else if mode = 1 then
    (camelotMajor.get? key.toNat).map (fun n => toString n ++ "A")
  else
    (camelotMinor.get? key.toNat).map (fun n => toString n ++ "B")

/-- The 24 fixed Camelot labels the converter can produce. -/
def camelotLabels : List String :=
  ["1A", "2A", "3A", "4A", "5A", "6A", "7A", "8A", "9A", "10A", "11A", "12A",
   "1B", "2B", "3B", "4B", "5B", "6B", "7B", "8B", "9B", "10B", "11B", "12B"]

/-! ### Enrichment Client (`enhanceSongData`, both revisions) -/

/-- A Spotify search hit as assembled by `verifyWithSpotify`. -/
structure SpotifyTrack where
  spotify_song_name : String
  spotify_artist : String
  spotify_id : String
deriving DecidableEq

/-- The processed result of `getSpotifyAudioFeatures`. -/
structure AudioFeatures where
  bpm : Option Int
  key_camelot : Option String
  key_regular : Option String
deriving DecidableEq

/-- Outcome of the upstream Spotify interaction seen by `enhanceSongData`:
`verifyWithSpotify` returned null (no match, or any caught transport
error), or it matched with an optional audio-features result, or an
exception reached `enhanceSongData`'s own try/catch. -/
inductive SpotifyOutcome where
  | noMatch
  | matched (track : SpotifyTrack) (features : Option AudioFeatures)
  | thrown
deriving DecidableEq

/-- The record returned by the Spotify-revision `enhanceSongData`. -/
structure EnhancedData where
  corrected_song_name : String
  corrected_artist : String
  bpm : Option Int
  key_camelot : Option String
  key_regular : Option String
  spotify_verified : Bool
deriving DecidableEq

/-- `enhanceSongData(songName, artist)` of the multi-tenant revision,
with the upstream outcome made explicit. -/
def enhanceSongData (songName artist : String) (o : SpotifyOutcome) : EnhancedData :=
  match o with
  | .noMatch =>
      { corrected_song_name := songName, corrected_artist := artist,
        bpm := none, key_camelot := none, key_regular := none,
        spotify_verified := false }
  | .matched track features =>
      { corrected_song_name := track.spotify_song_name,
        corrected_artist := track.spotify_artist,
        bpm := match features with | some af => af.bpm | none => none,
        key_camelot := match features with | some af => af.key_camelot | none => none,
        key_regular := match features with | some af => af.key_regular | none => none,
        spotify_verified := true }
  | .thrown =>
      { corrected_song_name := songName, corrected_artist := artist,
        bpm := none, key_camelot := none, key_regular := none,
        spotify_verified := false }

/-- The JSON object fields decoded from the LLM completion. -/
structure ParsedEnhancement where
  corrected_song_name : Option String
  corrected_artist : Option String
  bpm : Option Int
  key_camelot : Option String
  key_regular : Option String
deriving DecidableEq

/-- Outcome of the OpenAI call and JSON decoding: either some exception
(API failure or `JSON.parse` failure) reached the catch, or decoding
succeeded. -/
inductive LlmOutcome where
  | thrown
  | parsed (p : ParsedEnhancement)
deriving DecidableEq

/-- The record returned by the OpenAI-revision `enhanceSongData`. -/
structure EnhancedDataLLM where
  corrected_song_name : String
  corrected_artist : String
  bpm : Option Int
  key_camelot : Option String
  key_regular : Option String
deriving DecidableEq

/-- `enhanceSongData(songName, artist)` of the OpenAI revision
(`server.js`), with the upstream/parse outcome made explicit. -/
def enhanceSongDataLLM (songName artist : String) (o : LlmOutcome) : EnhancedDataLLM :=
  match o with
  | .thrown =>
      { corrected_song_name := songName, corrected_artist := artist,
        bpm := none, key_camelot := none, key_regular := none }
  | .parsed p =>
      { corrected_song_name := (jsOrNullStr p.corrected_song_name).getD songName,
        corrected_artist := (jsOrNullStr p.corrected_artist).getD artist,
        bpm := jsOrNullInt p.bpm,
        key_camelot := jsOrNullStr p.key_camelot,
        key_regular := jsOrNullStr p.key_regular }

/-! ### Data model -/

/-- A row of the `sessions` table. -/
structure Session where
  id : String
  name : String
  is_active : Bool
  welcome_message : Option String
  subtitle_message : Option String
  background : Option String
  created_at : Nat
deriving DecidableEq

/-- A row of the `submissions` table. -/
structure Submission where
  id : Nat
  session_id : String
  song_name : String
  artist : String
  user_name : Option String
  original_song_name : String
  original_artist : String
  bpm : Option Int
  key_camelot : Option String
  key_regular : Option String
  spotify_fetched : Bool
  created_at : Nat
deriving DecidableEq

/-- The database state: both tables plus the autoincrement counter. -/
structure Store where
  sessions : List Session
  submissions : List Submission
  nextSubmissionId : Nat
deriving DecidableEq

/-- `db.get('SELECT * FROM sessions WHERE id = ?')`. -/
def findSession (store : Store) (sid : String) : Option Session :=
  store.sessions.find? (fun s => decide (s.id = sid))

/-- The ids currently present in the `sessions` table. -/
def sessionIds (store : Store) : List String :=
  store.sessions.map (fun s => s.id)

/-- The HTTP-level result of an API route. -/
inductive ApiResult (α : Type) where
  | badRequest (error : String)
  | notFound (error : String)
  | serverError (error : String)
  | ok (val : α)
deriving DecidableEq

/-! ### Session-id generation -/

/-- The sampling alphabet of `generateShortCode`. -/
def codeChars : List Char := "ABCDEFGHIJKLMNOPQRSTUVWXYZ0123456789".data

/-- `chars.charAt(i)` for a sampled index `i < 36`. -/
def charAt (i : Fin 36) : Char :=
  codeChars.get (Fin.cast (by decide) i)

/-- `generateShortCode()` applied to four sampled character indices. -/
def generateShortCode (a b c d : Fin 36) : String :=
  String.mk [charAt a, charAt b, charAt c, charAt d]

/-- The candidate code produced at retry attempt `i` from the random
stream `r` (each attempt consumes four samples). -/
def codeStream (r : Nat → Fin 36) (i : Nat) : String :=
  generateShortCode (r (4 * i)) (r (4 * i + 1)) (r (4 * i + 2)) (r (4 * i + 3))

/-- `tryGenerate`'s retry loop: `fuel` remaining attempts, `i` the index
of the next candidate; a candidate colliding with an existing id causes
a retry, a fresh one is returned. -/
def tryGenerate (existing : List String) (codes : Nat → String) : Nat → Nat → Option String
  | 0, _ => none
  | fuel + 1, i =>
      if codes i ∈ existing then tryGenerate existing codes fuel (i + 1)
      else some (codes i)

/-- `maxAttempts` of `generateSessionId`. -/
def maxAttempts : Nat := 100

/-- `generateSessionId(callback)`: retries `generateShortCode` against
the existing ids up to `maxAttempts` times; `none` models the null
passed to the callback on exhaustion. -/
def generateSessionId (existing : List String) (r : Nat → Fin 36) : Option String :=
  tryGenerate existing (codeStream r) maxAttempts 0

/-! ### Routes -/

/-- Build the session row inserted by `POST /api/sessions`: welcome
message defaults to the session name, subtitle and background to the
fixed defaults, and `is_active` to 1. -/
def mkSession (sid sessionName : String) (now : Nat) : Session :=
  { id := sid, name := sessionName, is_active := true,
    welcome_message := some sessionName,
    subtitle_message := some ("Submit your song below"),
    background := some ("#000"),
    created_at := now }

/-- `POST /api/sessions`: validates the name, generates a unique id,
inserts the session; returns `(id, trimmed name)` on success. -/
def apiSessionsCreate (store : Store) (name : Option String) (r : Nat → Fin 36) (now : Nat) :
    ApiResult (String × String) × Store :=
  if jsFalsy name = true ∨ jsTrim (name.getD ("")) = "" then
    (.badRequest ("Session name is required"), store)
  else
    match generateSessionId (sessionIds store) r with
    | none => (.serverError ("Failed to generate unique session ID"), store)
    | some sid =>
        (.ok (sid, jsTrim (name.getD (""))),
         { store with sessions := store.sessions ++ [mkSession sid (jsTrim (name.getD (""))) now] })

/-- Run a sequence of `POST /api/sessions` calls; `some (ids, store')`
when every create in the sequence succeeds. -/
def createSeq (store : Store) : List (Option String × (Nat → Fin 36) × Nat) → Option (List String × Store)
  | [] => some ([], store)
  | (name, r, now) :: rest =>
      match apiSessionsCreate store name r now with
      | (ApiResult.ok res, store2) =>
          match createSeq store2 rest with
          | some (ids, store3) => some (res.1 :: ids, store3)
          | none => none
      | (ApiResult.badRequest _, _) => none
      | (ApiResult.notFound _, _) => none
      | (ApiResult.serverError _, _) => none

/-- The body of `POST /api/submit`. -/
structure SubmitRequest where
  songName : Option String
  artist : Option String
  userName : Option String
  sessionId : Option String
  spotifyId : Option String
deriving DecidableEq

/-- `POST /api/submit`: validates fields, checks the session exists,
fetches audio features when a Spotify id was provided (`features` is
that fetch's outcome), then inserts the row. -/
def apiSubmit (store : Store) (req : SubmitRequest) (features : Option AudioFeatures) (now : Nat) :
    ApiResult Nat × Store :=
  if jsFalsy req.songName = true ∨ jsFalsy req.artist = true then
    (.badRequest ("Song name and artist are required"), store)
  else if jsFalsy req.sessionId = true then
    (.badRequest ("Session ID is required"), store)
  else
    match findSession store (req.sessionId.getD ("")) with
    | none => (.notFound ("Session not found"), store)
    | some _ =>
        (.ok store.nextSubmissionId,
         { store with
             submissions := store.submissions ++
               [{ id := store.nextSubmissionId,
                  session_id := req.sessionId.getD (""),
                  song_name := req.songName.getD (""),
                  artist := req.artist.getD (""),
                  user_name := jsOrNullStr req.userName,
                  original_song_name := req.songName.getD (""),
                  original_artist := req.artist.getD (""),
                  bpm := match (if jsFalsy req.spotifyId = true then none else features) with
                         | some af => af.bpm | none => none,
                  key_camelot := match (if jsFalsy req.spotifyId = true then none else features) with
                                 | some af => af.key_camelot | none => none,
                  key_regular := match (if jsFalsy req.spotifyId = true then none else features) with
                                 | some af => af.key_regular | none => none,
                  spotify_fetched := !(jsFalsy req.spotifyId),
                  created_at := now }],
             nextSubmissionId := store.nextSubmissionId + 1 })

/-- Insert a submission into a list kept newest-first by `created_at`. -/
def insertDesc (x : Submission) : List Submission → List Submission
  | [] => [x]
  | y :: ys => if x.created_at ≤ y.created_at then y :: insertDesc x ys else x :: y :: ys

/-- `ORDER BY created_at DESC`. -/
def orderByCreatedAtDesc : List Submission → List Submission
  | [] => []
  | x :: xs => insertDesc x (orderByCreatedAtDesc xs)

/-- `GET /api/submissions?sessionId=`: validates the parameter, checks
the session exists, then returns that session's rows newest-first.
(The read path's timestamp reformatting only changes the textual
rendering of `created_at`, which is abstract here.) -/
def apiSubmissions (store : Store) (sessionId : Option String) : ApiResult (List Submission) :=
  if jsFalsy sessionId = true then .badRequest ("Session ID is required")
  else
    match findSession store (sessionId.getD ("")) with
    | none => .notFound ("Session not found")
    | some _ =>
        .ok (orderByCreatedAtDesc
              (store.submissions.filter (fun r => decide (r.session_id = sessionId.getD ("")))))

/-- `DELETE /api/clear`: validates the parameter, then deletes every
submission of that session id (no session-existence check), returning
the deleted count. -/
def apiClear (store : Store) (sessionId : Option String) : ApiResult Nat × Store :=
  if jsFalsy sessionId = true then (.badRequest ("Session ID is required"), store)
  else
    ((.ok ((store.submissions.filter (fun r => decide (r.session_id = sessionId.getD ("")))).length)),
     { store with submissions :=
         store.submissions.filter (fun r => !(decide (r.session_id = sessionId.getD ("")))) })

/-- `POST /api/update-settings`: validates the parameter, then updates
the three settings columns (falsy values stored as null) on every row
whose id matches — with no session-existence check. -/
def apiUpdateSettings (store : Store) (sessionId welcomeMessage subtitleMessage background : Option String) :
    ApiResult Unit × Store :=
  if jsFalsy sessionId = true then (.badRequest ("Session ID is required"), store)
  else
    (.ok (),
     { store with sessions := store.sessions.map (fun s =>
         if s.id = sessionId.getD ("") then
           { s with welcome_message := jsOrNullStr welcomeMessage,
                    subtitle_message := jsOrNullStr subtitleMessage,
                    background := jsOrNullStr background }
         else s) })

/-- The settings JSON returned by `GET /api/settings`. -/
structure SettingsView where
  welcomeMessage : Option String
  subtitleMessage : String
  background : String
deriving DecidableEq

/-- Read-time default resolution: a stored value that is null, empty, or
whitespace-only resolves to the default. -/
def resolveSetting (v : Option String) (dflt : String) : String :=
  match v with
  | some s => if jsTrim s = "" then dflt else s
  | none => dflt

/-- `GET /api/settings?sessionId=`: global defaults when the parameter
is absent; 404 when the session does not exist; otherwise the stored
values with defaults resolved at read time. -/
def apiSettings (store : Store) (sessionId : Option String) : ApiResult SettingsView :=
  if jsFalsy sessionId = true then
    .ok { welcomeMessage := none,
          subtitleMessage := "Submit your song below",
          background := "#000" }
  else
    match findSession store (sessionId.getD ("")) with
    | none => .notFound ("Session not found")
    | some row =>
        .ok { welcomeMessage := some (resolveSetting row.welcome_message row.name),
              subtitleMessage := resolveSetting row.subtitle_message ("Submit your song below"),
              background := resolveSetting row.background ("#000") }

/-! ### Root-level session-code route -/

/-- A character accepted by `[A-Z0-9]`. -/
def isCodeChar (c : Char) : Bool :=
  ('A' ≤ c && c ≤ 'Z') || ('0' ≤ c && c ≤ '9')

/-- A character accepted by `[A-Z0-9]` under the `i` flag. -/
def isCodeCharCI (c : Char) : Bool :=
  isCodeChar c || ('a' ≤ c && c ≤ 'z')

/-- The test `/^[A-Z0-9]{4}$/.test(s)` (case-sensitive). -/
def matchesSessionCode (s : String) : Bool :=
  decide (s.data.length = 4) && s.data.all isCodeChar

/-- The test `/^[A-Z0-9]{4}$/i.test(s)` actually used by the route. -/
def matchesSessionCodeCI (s : String) : Bool :=
  decide (s.data.length = 4) && s.data.all isCodeCharCI

/-- The outcome of `GET /:sessionCode`. -/
inductive PageResult where
  | redirect (target : String)
  | notFoundPage
deriving DecidableEq

/-- `GET /:sessionCode`: redirect to the session page when the code
passes the (case-insensitive) test, else a 404 page. -/
def sessionCodeRoute (code : String) : PageResult :=
  if matchesSessionCodeCI code = true then .redirect ("/session/" ++ code)
  else .notFoundPage

/-! ### Concrete fixtures used by counterexamples and witnesses -/

/-- Fixture: a submission belonging to session `AAAA`. -/
def subA : Submission :=
  { id := 1, session_id := "AAAA", song_name := "s1", artist := "a1",
    user_name := none, original_song_name := "s1", original_artist := "a1",
    bpm := none, key_camelot := none, key_regular := none,
    spotify_fetched := false, created_at := 5 }

/-- Fixture: a submission belonging to session `BBBB`. -/
def subB : Submission :=
  { id := 2, session_id := "BBBB", song_name := "s2", artist := "a2",
    user_name := none, original_song_name := "s2", original_artist := "a2",
    bpm := none, key_camelot := none, key_regular := none,
    spotify_fetched := false, created_at := 6 }

/-- Fixture: two sessions, each with one submission. -/
def storeAB : Store :=
  { sessions := [mkSession ("AAAA") ("A") 0, mkSession ("BBBB") ("B") 0],
    submissions := [subA, subB],
    nextSubmissionId := 3 }

/-- Fixture: the empty database. -/
def emptyStore : Store := { sessions := [], submissions := [], nextSubmissionId := 1 }

/-- Fixture: a session whose three settings columns are all null. -/
def sessC8 : Session :=
  { id := "ABCD", name := "My Party", is_active := true,
    welcome_message := none, subtitle_message := none, background := none,
    created_at := 0 }

/-- Fixture: a store holding just `sessC8`. -/
def storeC8 : Store := { sessions := [sessC8], submissions := [], nextSubmissionId := 1 }

/-- Fixture: a store holding one session whose id is `AAAA`. -/
def storeOne : Store :=
  { sessions := [mkSession ("AAAA") ("x") 0], submissions := [], nextSubmissionId := 1 }

/-- Fixture: a submit request with an empty song name and an unknown session id. -/
def reqC3 : SubmitRequest :=
  { songName := some (""), artist := some ("x"), userName := none,
    sessionId := some ("ZZZZ"), spotifyId := none }

/-- Fixture: a well-formed submit request naming an unknown session id. -/
def reqW : SubmitRequest :=
  { songName := some ("song"), artist := some ("artist"), userName := none,
    sessionId := some ("QQQQ"), spotifyId := none }

/-! ## Theorems -/

/-! ### Helper lemmas about ordering and lookup -/

theorem mem_insertDesc {a x : Submission} {l : List Submission} :
    a ∈ insertDesc x l ↔ a = x ∨ a ∈ l := by
  induction l with
  | nil => simp [insertDesc]
  | cons y ys ih =>
      simp only [insertDesc]
      split
      · simp only [List.mem_cons, ih]
        tauto
      · simp [List.mem_cons]

theorem mem_orderByCreatedAtDesc {a : Submission} {l : List Submission} :
    a ∈ orderByCreatedAtDesc l ↔ a ∈ l := by
  induction l with
  | nil => simp [orderByCreatedAtDesc]
  | cons x xs ih => simp [orderByCreatedAtDesc, mem_insertDesc, ih]

/-! ### Claim C4 -/

/-- Claim C4: `convertToCamelotKey` is total and deterministic on the
claimed domain: for every pitch class in `0..11` and mode in `{0, 1}` it
returns the per-mode wheel-table entry with suffix `A` for major and `B`
for minor, which is one of the 24 fixed Camelot labels; for pitch class
`-1` or mode `-1` it returns null. -/
theorem convertToCamelotKey_total (key mode : Int) :
    (0 ≤ key → key ≤ 11 → (mode = 0 ∨ mode = 1) →
      convertToCamelotKey key mode =
        some ((if mode = 1 then toString (camelotMajor.getD key.toNat 0) ++ "A"
               else toString (camelotMinor.getD key.toNat 0) ++ "B")) ∧
      convertToCamelotKey key mode ∈ camelotLabels.map some) ∧
    convertToCamelotKey (-1) mode = none ∧
    convertToCamelotKey key (-1) = none := by
  refine ⟨?_, ?_, ?_⟩
  · intro h0 h11 hm
    rcases hm with hm | hm <;> subst hm <;> interval_cases key <;> exact ⟨by decide, by decide⟩
  · unfold convertToCamelotKey
    rw [if_pos (Or.inl rfl)]
  · unfold convertToCamelotKey
    rw [if_pos (Or.inr rfl)]

/-- Witness for the claim C4 theorem at pitch class 7, major mode. -/
theorem convertToCamelotKey_total_witness :
    convertToCamelotKey 7 1 =
      some ((if (1 : Int) = 1 then toString (camelotMajor.getD (7 : Int).toNat 0) ++ "A"
             else toString (camelotMinor.getD (7 : Int).toNat 0) ++ "B")) ∧
    convertToCamelotKey 7 1 ∈ camelotLabels.map some :=
  (convertToCamelotKey_total 7 1).1 (by decide) (by decide) (Or.inr rfl)

/-! ### Claim C5 -/

/-- Claim C5 counterexample: an upstream failure of the audio-features
call after a successful search is not an input pass-through.  On the
concrete input `("yesterday", "beatles")` with a Spotify match whose
features fetch failed (`getSpotifyAudioFeatures` caught a transport
error and returned null), `enhanceSongData` returns the Spotify
corrected name `Yesterday` — not the input `yesterday` — and reports
`spotify_verified = true`. -/
theorem enhanceSongData_features_failure_cex :
    (enhanceSongData ("yesterday") ("beatles")
        (SpotifyOutcome.matched
          { spotify_song_name := "Yesterday", spotify_artist := "The Beatles",
            spotify_id := "t1" } none)).corrected_song_name = "Yesterday" ∧
    (enhanceSongData ("yesterday") ("beatles")
        (SpotifyOutcome.matched
          { spotify_song_name := "Yesterday", spotify_artist := "The Beatles",
            spotify_id := "t1" } none)).spotify_verified = true ∧
    ("Yesterday" : String) ≠ "yesterday" := by decide

/-- Claim C5 amended: the enrichment clients never raise past their
boundary — they are total over every upstream outcome.  On a no-match
result or a caught exception (transport or parse failure) they return
the pass-through record whose corrected fields equal the inputs and
whose bpm and keys are null (both the Spotify revision and the OpenAI
revision); but when the search matches and only the subsequent
audio-features call fails, the Spotify revision instead returns the
match's corrected song name and artist with null bpm and keys and
`spotify_verified = true`. -/
theorem enhanceSongData_boundary (songName artist : String) (track : SpotifyTrack) :
    enhanceSongData songName artist SpotifyOutcome.noMatch =
      { corrected_song_name := songName, corrected_artist := artist,
        bpm := none, key_camelot := none, key_regular := none, spotify_verified := false } ∧
    enhanceSongData songName artist SpotifyOutcome.thrown =
      { corrected_song_name := songName, corrected_artist := artist,
        bpm := none, key_camelot := none, key_regular := none, spotify_verified := false } ∧
    enhanceSongData songName artist (SpotifyOutcome.matched track none) =
      { corrected_song_name := track.spotify_song_name,
        corrected_artist := track.spotify_artist,
        bpm := none, key_camelot := none, key_regular := none, spotify_verified := true } ∧
    enhanceSongDataLLM songName artist LlmOutcome.thrown =
      { corrected_song_name := songName, corrected_artist := artist,
        bpm := none, key_camelot := none, key_regular := none } :=
  ⟨rfl, rfl, rfl, rfl⟩

/-! ### Claim C9 -/

/-- Claim C9 counterexample: the lowercase code `abcd` is redirected by
`GET /:sessionCode` even though it does not match the case-sensitive
`^[A-Z0-9]{4}$`, because the route's regular expression carries the `i`
flag. -/
theorem sessionCodeRoute_lowercase_cex :
    sessionCodeRoute ("abcd") = PageResult.redirect ("/session/abcd") ∧
    matchesSessionCode ("abcd") = false := by decide

/-- Claim C9 amended: `GET /:sessionCode` redirects to `/session/:code`
exactly when the code matches `^[A-Z0-9]{4}$` case-insensitively
(equivalently `^[A-Za-z0-9]{4}$`), and responds 404 for every other
code. -/
theorem sessionCodeRoute_spec (code : String) :
    (sessionCodeRoute code = PageResult.redirect ("/session/" ++ code) ↔
      matchesSessionCodeCI code = true) ∧
    (matchesSessionCodeCI code = false → sessionCodeRoute code = PageResult.notFoundPage) := by
  unfold sessionCodeRoute
  by_cases hc : matchesSessionCodeCI code = true
  · rw [if_pos hc]
    exact ⟨⟨fun _ => hc, fun _ => rfl⟩, fun hf => absurd hc (by simp [hf])⟩
  · rw [if_neg hc]
    exact ⟨⟨fun h => PageResult.noConfusion h, fun h => absurd h hc⟩, fun _ => rfl⟩

/-- Witness for the claim C9 theorem at a non-matching code. -/
theorem sessionCodeRoute_spec_witness :
    sessionCodeRoute ("ab!d") = PageResult.notFoundPage :=
  (sessionCodeRoute_spec ("ab!d")).2 (by decide)

/-! ### Claim C10 -/

/-- Claim C10: `POST /api/update-settings` with a session id that names
no existing session still responds with success and leaves every
session record (indeed the whole store) unchanged: it performs no
existence check and returns no not-found signal. -/
theorem apiUpdateSettings_unknown_noop (store : Store) (sid : String) (w su b : Option String)
    (hsid : sid ≠ "") (hunk : ∀ s ∈ store.sessions, s.id ≠ sid) :
    (apiUpdateSettings store (some sid) w su b).1 = ApiResult.ok () ∧
    (apiUpdateSettings store (some sid) w su b).2 = store := by
  unfold apiUpdateSettings
  rw [if_neg (by simp [jsFalsy, hsid])]
  refine ⟨rfl, ?_⟩
  have hmap : store.sessions.map (fun s =>
      if s.id = (some sid).getD ("") then
        { s with welcome_message := jsOrNullStr w,
                 subtitle_message := jsOrNullStr su,
                 background := jsOrNullStr b }
      else s) = store.sessions := by
    have hid : ∀ s ∈ store.sessions, (fun s =>
        if s.id = (some sid).getD ("") then
          { s with welcome_message := jsOrNullStr w,
                   subtitle_message := jsOrNullStr su,
                   background := jsOrNullStr b }
        else s) s = id s := by
      intro s hs
      simp only [id]
      exact if_neg (hunk s hs)
    rw [List.map_congr_left hid, List.map_id]
  rw [hmap]

/-- Witness for the claim C10 theorem on a two-session store and the
unknown id `QQQQ`. -/
theorem apiUpdateSettings_unknown_noop_witness :
    (apiUpdateSettings storeAB (some ("QQQQ")) (some ("w")) none none).1 = ApiResult.ok () ∧
    (apiUpdateSettings storeAB (some ("QQQQ")) (some ("w")) none none).2 = storeAB :=
  apiUpdateSettings_unknown_noop storeAB ("QQQQ") (some ("w")) none none (by decide) (by decide)

/-! ### Claim C1 -/

/-- Claim C1: cross-tenant isolation of reads.  For every store state
(so in particular every reachable one) and distinct sessions `a` and
`b`, a successful `GET /api/submissions?sessionId=a` returns only rows
whose session reference is `a`, and excludes every row of `b`. -/
theorem listBySession_isolation (store : Store) (a b : String) (rows : List Submission)
    (h : apiSubmissions store (some a) = ApiResult.ok rows) (hab : b ≠ a) :
    (∀ row ∈ rows, row.session_id = a) ∧
    (∀ row ∈ store.submissions, row.session_id = b → row ∉ rows) := by
  have hrows : ∀ row ∈ rows, row.session_id = a := by
    intro row hrow
    unfold apiSubmissions at h
    split at h
    · exact absurd h (by simp)
    · split at h
      · exact absurd h (by simp)
      · injection h with h
        subst h
        rw [mem_orderByCreatedAtDesc, List.mem_filter] at hrow
        simpa using hrow.2
  refine ⟨hrows, ?_⟩
  intro row _ hb hrow
  exact hab (by rw [← hb]; exact hrows row hrow)

/-- Witness for the claim C1 theorem on a concrete two-session store. -/
theorem listBySession_isolation_witness :
    (∀ row ∈ [subA], row.session_id = "AAAA") ∧
    (∀ row ∈ storeAB.submissions, row.session_id = "BBBB" → row ∉ [subA]) :=
  listBySession_isolation storeAB ("AAAA") ("BBBB") [subA] (by decide) (by decide)

/-! ### Claim C2 -/

/-- Claim C2 counterexample: `DELETE /api/clear` with an unknown session
id is not rejected with a not-found signal — it succeeds with a deleted
count of 0. -/
theorem apiClear_unknown_succeeds_cex :
    findSession emptyStore ("ZZZZ") = none ∧
    (apiClear emptyStore (some ("ZZZZ"))).1 = ApiResult.ok 0 ∧
    ∀ e : String, (apiClear emptyStore (some ("ZZZZ"))).1 ≠ ApiResult.notFound e := by
  refine ⟨by decide, by decide, ?_⟩
  intro e h
  have h0 : (apiClear emptyStore (some ("ZZZZ"))).1 = ApiResult.ok 0 := by decide
  rw [h0] at h
  exact ApiResult.noConfusion h

/-- Claim C2 amended: create (`POST /api/submit`) and listBySession
(`GET /api/submissions`) reject an absent sessionId with the 400
missing-parameter signal and — when the other required fields are
present — an unknown sessionId with the distinct 404 not-found signal;
clearBySession (`DELETE /api/clear`) rejects an absent sessionId with
400 but performs no existence check: an unknown sessionId yields a
success response (deleting whatever rows carry that id), not a 404. -/
theorem sessionId_validation_signals (store : Store) (req : SubmitRequest)
    (features : Option AudioFeatures) (now : Nat) (sid : String)
    (hsong : jsFalsy req.songName = false) (hart : jsFalsy req.artist = false)
    (hsid : sid ≠ "") (hunk : findSession store sid = none) :
    ((req.sessionId = none ∨ req.sessionId = some ("")) →
      (apiSubmit store req features now).1 = ApiResult.badRequest ("Session ID is required")) ∧
    (req.sessionId = some sid →
      (apiSubmit store req features now).1 = ApiResult.notFound ("Session not found")) ∧
    apiSubmissions store none = ApiResult.badRequest ("Session ID is required") ∧
    apiSubmissions store (some sid) = ApiResult.notFound ("Session not found") ∧
    (apiClear store none).1 = ApiResult.badRequest ("Session ID is required") ∧
    (∃ n : Nat, (apiClear store (some sid)).1 = ApiResult.ok n) ∧
    (∀ m m' : String, (ApiResult.badRequest m : ApiResult Nat) ≠ ApiResult.notFound m') := by
  refine ⟨?_, ?_, ?_, ?_, ?_, ?_, ?_⟩
  · rintro (h | h) <;>
      · simp only [apiSubmit, hsong, hart, h]
        simp [jsFalsy]
  · intro h
    simp only [apiSubmit, hsong, hart, h]
    simp [jsFalsy, hsid, hunk]
  · simp [apiSubmissions, jsFalsy]
  · simp [apiSubmissions, jsFalsy, hsid, hunk]
  · simp [apiClear, jsFalsy]
  · refine ⟨(store.submissions.filter (fun r => decide (r.session_id = sid))).length, ?_⟩
    simp [apiClear, jsFalsy, hsid]
  · intro m m' hc
    exact ApiResult.noConfusion hc

/-- Witness for the claim C2 theorem on the empty store and the unknown
id `QQQQ`. -/
theorem sessionId_validation_signals_witness :
    (apiSubmit emptyStore reqW none 0).1 = ApiResult.notFound ("Session not found") ∧
    apiSubmissions emptyStore none = ApiResult.badRequest ("Session ID is required") ∧
    apiSubmissions emptyStore (some ("QQQQ")) = ApiResult.notFound ("Session not found") ∧
    (apiClear emptyStore none).1 = ApiResult.badRequest ("Session ID is required") ∧
    ∃ n : Nat, (apiClear emptyStore (some ("QQQQ"))).1 = ApiResult.ok n := by
  have h := sessionId_validation_signals emptyStore reqW none 0 ("QQQQ")
    (by decide) (by decide) (by decide) (by decide)
  exact ⟨h.2.1 rfl, h.2.2.1, h.2.2.2.1, h.2.2.2.2.1, h.2.2.2.2.2.1⟩

/-! ### Claim C3 -/

/-- Claim C3 counterexample: a submit request whose sessionId is unknown
but whose songName is empty fails with the 400 validation signal, not
the claimed 404 not-found signal (field validation runs first). -/
theorem apiSubmit_unknown_badRequest_cex :
    findSession storeAB ("ZZZZ") = none ∧
    (apiSubmit storeAB reqC3 none 0).1 = ApiResult.badRequest ("Song name and artist are required") ∧
    ∀ e : String, (apiSubmit storeAB reqC3 none 0).1 ≠ ApiResult.notFound e := by
  refine ⟨by decide, by decide, ?_⟩
  intro e h
  have h0 : (apiSubmit storeAB reqC3 none 0).1 =
      ApiResult.badRequest ("Song name and artist are required") := by decide
  rw [h0] at h
  exact ApiResult.noConfusion h

/-- Claim C3 amended: for every store state, a `POST /api/submit`
request whose sessionId does not name an existing session inserts no
row (the store is unchanged), and — when songName, artist and sessionId
are present — the operation fails with the 404 not-found signal. -/
theorem apiSubmit_unknown_atomic (store : Store) (req : SubmitRequest)
    (features : Option AudioFeatures) (now : Nat)
    (hunk : findSession store (req.sessionId.getD ("")) = none) :
    (apiSubmit store req features now).2 = store ∧
    (jsFalsy req.songName = false → jsFalsy req.artist = false →
      jsFalsy req.sessionId = false →
      (apiSubmit store req features now).1 = ApiResult.notFound ("Session not found")) := by
  constructor
  · unfold apiSubmit
    split
    · rfl
    · split
      · rfl
      · rw [hunk]
  · intro h1 h2 h3
    simp [apiSubmit, h1, h2, h3, hunk]

/-- Witness for the claim C3 theorem: submitting to the unknown session
`QQQQ` on the empty store. -/
theorem apiSubmit_unknown_atomic_witness :
    (apiSubmit emptyStore reqW none 0).2 = emptyStore ∧
    (apiSubmit emptyStore reqW none 0).1 = ApiResult.notFound ("Session not found") :=
  ⟨(apiSubmit_unknown_atomic emptyStore reqW none 0 (by decide)).1,
   (apiSubmit_unknown_atomic emptyStore reqW none 0 (by decide)).2
     (by decide) (by decide) (by decide)⟩

/-! ### Claims C6 and C7: session-id generation -/

theorem charAt_isCodeChar : ∀ i : Fin 36, isCodeChar (charAt i) = true := by decide

theorem generateShortCode_matches (a b c d : Fin 36) :
    matchesSessionCode (generateShortCode a b c d) = true := by
  simp [matchesSessionCode, generateShortCode, charAt_isCodeChar a, charAt_isCodeChar b,
        charAt_isCodeChar c, charAt_isCodeChar d]

theorem tryGenerate_sound (existing : List String) (codes : Nat → String) :
    ∀ (fuel i : Nat) (c : String), tryGenerate existing codes fuel i = some c →
      (∃ j, c = codes j) ∧ c ∉ existing := by
  intro fuel
  induction fuel with
  | zero => intro i c h; cases h
  | succ n ih =>
      intro i c h
      unfold tryGenerate at h
      split at h
      · exact ih (i + 1) c h
      · injection h with h
        subst h
        rename_i hmem
        exact ⟨⟨i, rfl⟩, hmem⟩

theorem generateSessionId_sound (existing : List String) (r : Nat → Fin 36) (c : String)
    (h : generateSessionId existing r = some c) :
    matchesSessionCode c = true ∧ c ∉ existing := by
  obtain ⟨⟨j, hj⟩, hnot⟩ := tryGenerate_sound existing (codeStream r) maxAttempts 0 c h
  subst hj
  exact ⟨generateShortCode_matches _ _ _ _, hnot⟩

theorem apiSessionsCreate_ok (store : Store) (name : Option String) (r : Nat → Fin 36) (now : Nat)
    (res : String × String) (store2 : Store)
    (h : apiSessionsCreate store name r now = (ApiResult.ok res, store2)) :
    generateSessionId (sessionIds store) r = some res.1 ∧
    store2.sessions = store.sessions ++ [mkSession res.1 res.2 now] := by
  unfold apiSessionsCreate at h
  split at h
  · exact absurd h (by simp)
  · split at h
    · exact absurd h (by simp)
    · rename_i sid heq
      injection h with h1 h2
      injection h1 with h1
      subst h1
      subst h2
      exact ⟨heq, rfl⟩

theorem sessionIds_append_one (store : Store) (s : Session) :
    sessionIds { store with sessions := store.sessions ++ [s] } = sessionIds store ++ [s.id] := by
  simp [sessionIds]

/-- Claim C6: every id handed out by a successful session create matches
`^[A-Z0-9]{4}$`, and across any sequence of sequential creates that all
succeed within the retry bound the returned ids are pairwise distinct
and fresh with respect to the starting store. -/
theorem createSeq_ids_distinct (store : Store) (inputs : List (Option String × (Nat → Fin 36) × Nat))
    (ids : List String) (store' : Store)
    (h : createSeq store inputs = some (ids, store')) :
    (∀ c ∈ ids, matchesSessionCode c = true) ∧ ids.Nodup ∧
    ∀ c ∈ ids, c ∉ sessionIds store := by
  induction inputs generalizing store ids store' with
  | nil =>
      unfold createSeq at h
      injection h with h
      injection h with h1 h2
      subst h1
      exact ⟨by simp, by simp, by simp⟩
  | cons p rest ih =>
      obtain ⟨name, r, now⟩ := p
      unfold createSeq at h
      split at h
      · rename_i res store2 heq
        split at h
        · rename_i ids2 store3 heq2
          injection h with h
          injection h with h1 h2
          subst h1
          obtain ⟨hgen, hsess⟩ := apiSessionsCreate_ok store name r now res store2 heq
          obtain ⟨hmatch, hfresh⟩ := generateSessionId_sound (sessionIds store) r res.1 hgen
          obtain ⟨hm2, hnd2, hfresh2⟩ := ih store2 ids2 store3 heq2
          have hids2 : sessionIds store2 = sessionIds store ++ [res.1] := by
            have : store2 = { store2 with sessions := store2.sessions } := rfl
            calc sessionIds store2
                = store2.sessions.map (fun s => s.id) := rfl
              _ = (store.sessions ++ [mkSession res.1 res.2 now]).map (fun s => s.id) := by
                    rw [hsess]
              _ = sessionIds store ++ [res.1] := by simp [sessionIds, mkSession]
          refine ⟨?_, ?_, ?_⟩
          · intro c hc
            rcases List.mem_cons.mp hc with hc | hc
            · subst hc; exact hmatch
            · exact hm2 c hc
          · refine List.nodup_cons.mpr ⟨?_, hnd2⟩
            intro hmem
            have := hfresh2 res.1 hmem
            rw [hids2] at this
            exact this (List.mem_append_right _ (List.mem_singleton.mpr rfl))
          · intro c hc
            rcases List.mem_cons.mp hc with hc | hc
            · subst hc; exact hfresh
            · intro hcs
              have := hfresh2 c hc
              rw [hids2] at this
              exact this (List.mem_append_left _ hcs)
        · cases h
      · cases h
      · cases h
      · cases h

/-- Witness for the claim C6 theorem: two sequential creates on the
empty store yielding the distinct ids `AAAA` and `BBBB`. -/
theorem createSeq_ids_distinct_witness :
    (∀ c ∈ [("AAAA" : String), "BBBB"], matchesSessionCode c = true) ∧
    [("AAAA" : String), "BBBB"].Nodup ∧
    ∀ c ∈ [("AAAA" : String), "BBBB"], c ∉ sessionIds emptyStore :=
  createSeq_ids_distinct emptyStore
    [(some ("s1"), fun _ => 0, 0), (some ("s2"), fun _ => 1, 1)]
    [("AAAA" : String), "BBBB"]
    { sessions := [mkSession ("AAAA") ("s1") 0, mkSession ("BBBB") ("s2") 1],
      submissions := [], nextSubmissionId := 1 }
    (by decide)

theorem tryGenerate_exhaust (existing : List String) (codes : Nat → String) :
    ∀ (fuel i : Nat), (∀ j, i ≤ j → j < i + fuel → codes j ∈ existing) →
      tryGenerate existing codes fuel i = none := by
  intro fuel
  induction fuel with
  | zero => intro i _; rfl
  | succ n ih =>
      intro i hall
      unfold tryGenerate
      rw [if_pos (hall i le_rfl (by omega))]
      exact ih (i + 1) (fun j h1 h2 => hall j (by omega) (by omega))

/-- Claim C7: `generateSessionId` retries at most `maxAttempts = 100`
candidate codes; if every one of those candidates collides with an
existing id it returns the failure value instead of retrying further,
and the surrounding create operation then fails with the hard 500
`Failed to generate unique session ID`, leaving the store unchanged. -/
theorem generateSessionId_bounded (store : Store) (name : Option String) (r : Nat → Fin 36)
    (now : Nat) (hname : jsFalsy name = false) (htrim : jsTrim (name.getD ("")) ≠ "")
    (hcollide : ∀ i < maxAttempts, codeStream r i ∈ sessionIds store) :
    maxAttempts = 100 ∧
    generateSessionId (sessionIds store) r = none ∧
    apiSessionsCreate store name r now =
      (ApiResult.serverError ("Failed to generate unique session ID"), store) := by
  have hgen : generateSessionId (sessionIds store) r = none := by
    unfold generateSessionId
    exact tryGenerate_exhaust _ _ maxAttempts 0 (fun j _ h2 => hcollide j (by omega))
  refine ⟨rfl, hgen, ?_⟩
  unfold apiSessionsCreate
  rw [if_neg (by simp [hname, htrim]), hgen]

/-- Witness for the claim C7 theorem: a constant random stream whose
every candidate is the already-used code `AAAA`. -/
theorem generateSessionId_bounded_witness :
    maxAttempts = 100 ∧
    generateSessionId (sessionIds storeOne) (fun _ => 0) = none ∧
    apiSessionsCreate storeOne (some ("y")) (fun _ => 0) 7 =
      (ApiResult.serverError ("Failed to generate unique session ID"), storeOne) :=
  generateSessionId_bounded storeOne (some ("y")) (fun _ => 0) 7
    (by decide) (by decide) (by decide)

/-! ### Claim C8: settings -/

theorem find_map_update (l : List Session) (sid : String) (f : Session → Session)
    (hf : ∀ s, (f s).id = s.id) :
    (l.map (fun s => if s.id = sid then f s else s)).find? (fun s => decide (s.id = sid)) =
      (l.find? (fun s => decide (s.id = sid))).map f := by
  induction l with
  | nil => rfl
  | cons x xs ih =>
      by_cases hx : x.id = sid
      · simp only [List.map_cons, if_pos hx, List.find?_cons]
        rw [show (decide ((f x).id = sid)) = true by simp [hf x, hx],
            show (decide (x.id = sid)) = true by simp [hx]]
        rfl
      · simp only [List.map_cons, if_neg hx, List.find?_cons]
        rw [show (decide (x.id = sid)) = false by simp [hx]]
        exact ih

theorem apiUpdateSettings_found (store : Store) (sid : String) (w su b : Option String)
    (hsid : sid ≠ "") :
    (apiUpdateSettings store (some sid) w su b).1 = ApiResult.ok () ∧
    findSession (apiUpdateSettings store (some sid) w su b).2 sid =
      (findSession store sid).map (fun s =>
        { s with welcome_message := jsOrNullStr w,
                 subtitle_message := jsOrNullStr su,
                 background := jsOrNullStr b }) := by
  unfold apiUpdateSettings
  rw [if_neg (by simp [jsFalsy, hsid])]
  refine ⟨rfl, ?_⟩
  unfold findSession
  exact find_map_update store.sessions sid _ (fun s => rfl)

/-- Claim C8 counterexample: after an explicit settings update that
stores the whitespace-only welcome message `" "`, the subsequent read
does not return `" "` verbatim — it resolves to the session name,
because read-time default resolution also fires on values that are
empty after trimming. -/
theorem settings_whitespace_not_verbatim_cex :
    (apiUpdateSettings storeC8 (some ("ABCD")) (some (" ")) none none).1 = ApiResult.ok () ∧
    (findSession (apiUpdateSettings storeC8 (some ("ABCD")) (some (" ")) none none).2
        ("ABCD")).map Session.welcome_message = some (some (" ")) ∧
    apiSettings (apiUpdateSettings storeC8 (some ("ABCD")) (some (" ")) none none).2
        (some ("ABCD")) =
      ApiResult.ok { welcomeMessage := some ("My Party"),
                     subtitleMessage := "Submit your song below", background := "#000" } ∧
    (" " : String) ≠ "My Party" := by
  refine ⟨by decide, by decide, by decide, by decide⟩

/-- Claim C8 amended: `updateSettings` stores null for every omitted
field; a subsequent read resolves a stored null to its default
(welcome → session name, subtitle → the fixed default string,
background → the fixed default color); and a read after an explicit
update returns the explicitly stored values verbatim provided each is
nonempty after trimming (explicit empty or whitespace-only values
resolve to the defaults, like omitted ones). -/
theorem settings_roundtrip (store : Store) (sid : String) (s : Session)
    (hsid : sid ≠ "") (hfind : findSession store sid = some s)
    (w su bg : String) (hw : jsTrim w ≠ "") (hsu : jsTrim su ≠ "") (hbg : jsTrim bg ≠ "") :
    findSession (apiUpdateSettings store (some sid) none none none).2 sid =
      some ({ s with welcome_message := none, subtitle_message := none, background := none }) ∧
    apiSettings (apiUpdateSettings store (some sid) none none none).2 (some sid) =
      ApiResult.ok { welcomeMessage := some (s.name),
                     subtitleMessage := "Submit your song below", background := "#000" } ∧
    apiSettings (apiUpdateSettings store (some sid) (some w) (some su) (some bg)).2 (some sid) =
      ApiResult.ok { welcomeMessage := some w, subtitleMessage := su, background := bg } := by
  have hwne : w ≠ "" := fun he => hw (by rw [he]; rfl)
  have hsune : su ≠ "" := fun he => hsu (by rw [he]; rfl)
  have hbgne : bg ≠ "" := fun he => hbg (by rw [he]; rfl)
  have h1 := (apiUpdateSettings_found store sid none none none hsid).2
  have h2 := (apiUpdateSettings_found store sid (some w) (some su) (some bg) hsid).2
  rw [hfind] at h1 h2
  simp only [jsOrNullStr, Option.map_some'] at h1 h2
  rw [if_neg hwne, if_neg hsune, if_neg hbgne] at h2
  refine ⟨h1, ?_, ?_⟩
  · unfold apiSettings
    rw [if_neg (by simp [jsFalsy, hsid])]
    simp only [Option.getD_some]
    rw [h1]
    simp [resolveSetting]
  · unfold apiSettings
    rw [if_neg (by simp [jsFalsy, hsid])]
    simp only [Option.getD_some]
    rw [h2]
    simp only [resolveSetting]
    rw [if_neg hw, if_neg hsu, if_neg hbg]

/-- Witness for the claim C8 theorem on a concrete session with
explicit values `Hello`, `Sub`, `#fff`. -/
theorem settings_roundtrip_witness :
    findSession (apiUpdateSettings storeC8 (some ("ABCD")) none none none).2 ("ABCD") =
      some ({ sessC8 with welcome_message := none, subtitle_message := none,
                          background := none }) ∧
    apiSettings (apiUpdateSettings storeC8 (some ("ABCD")) none none none).2 (some ("ABCD")) =
      ApiResult.ok { welcomeMessage := some (sessC8.name),
                     subtitleMessage := "Submit your song below", background := "#000" } ∧
    apiSettings (apiUpdateSettings storeC8 (some ("ABCD")) (some ("Hello")) (some ("Sub"))
        (some ("#fff"))).2 (some ("ABCD")) =
      ApiResult.ok { welcomeMessage := some ("Hello"), subtitleMessage := "Sub",
                     background := "#fff" } :=
  settings_roundtrip storeC8 ("ABCD") sessC8 (by decide) (by decide)
    ("Hello") ("Sub") ("#fff") (by decide) (by decide) (by decide)

end DJQ
